import Mathlib

/-!
Verification of the AIAGENT retrieval stack.

This file shallowly embeds the pure computational core of the repository:

* `src/tools/vector_search_tool.py` — `VectorSearchTool._calculate_cosine_similarity`
  and the scan / filter / sort / truncate pipeline of
  `VectorSearchTool.similarity_search`;
* `src/tools/embedding_tool.py` — `EmbeddingTool.calculate_similarity` and
  `EmbeddingTool._split_text_by_tokens`;
* `src/semantic_document_manager.py` — `SemanticDocumentManager._cosine_similarity`;
* `src/agents.py` — the knowledge-base acceptance decision inside
  `smart_search_and_answer`.

Python floats are embedded as exact numbers: the three cosine routines, which
use `math.sqrt`, are modelled over `ℝ`; the search pipeline, whose behaviour is
purely structural in the scores (comparisons, sorting, truncation), is modelled
over `ℚ` and is parameterised by the scoring function so that its theorems hold
for any score assignment, in particular for the cosine score the code uses.
-/

/-! ## Cosine similarity (three implementations) -/

/-- Sum of `a * b` over `zip(vector1, vector2)`, exactly as the Python
`sum(a * b for a, b in zip(v1, v2))` (the zip truncates to the shorter list). -/
def dotP (v w : List ℝ) : ℝ := (List.zipWith (fun a b => a * b) v w).sum

/-- Sum of squares of the entries, the radicand of the Python
`math.sqrt(sum(a * a for a in v))`. -/
def sumSq (v : List ℝ) : ℝ := (v.map (fun a => a * a)).sum

/-- `VectorSearchTool._calculate_cosine_similarity`
(`src/tools/vector_search_tool.py`, lines 33–66): returns `0.0` on a length
mismatch, returns `0.0` when either magnitude is zero, and otherwise clamps
`(cos + 1) / 2` into `[0, 1]` via `max(0.0, min(1.0, (similarity + 1) / 2))`. -/
noncomputable def calculateCosineSimilarityVST (v1 v2 : List ℝ) : ℝ :=
  if v1.length ≠ v2.length then 0
  else
    let dot := dotP v1 v2
    let magnitude1 := Real.sqrt (sumSq v1)
    let magnitude2 := Real.sqrt (sumSq v2)
    if magnitude1 = 0 ∨ magnitude2 = 0 then 0
    else max 0 (min 1 ((dot / (magnitude1 * magnitude2) + 1) / 2))

/-- `EmbeddingTool.calculate_similarity`
(`src/tools/embedding_tool.py`, lines 425–457): no length check (the zip in the
dot product truncates), returns `0.0` when either magnitude is zero, and clamps
the RAW cosine via `max(0.0, min(1.0, similarity))`. -/
noncomputable def calculateSimilarityET (embedding1 embedding2 : List ℝ) : ℝ :=
  let dot := dotP embedding1 embedding2
  let mag1 := Real.sqrt (sumSq embedding1)
  let mag2 := Real.sqrt (sumSq embedding2)
  if mag1 = 0 ∨ mag2 = 0 then 0
  else max 0 (min 1 (dot / (mag1 * mag2)))

/-- `SemanticDocumentManager._cosine_similarity`
(`src/semantic_document_manager.py`, lines 190–219): numpy dot product over
norms, `0.0` when either norm is zero, no clamping at all.  (numpy's `np.dot`
raises on mismatched lengths; the claims about this routine only concern
equal-dimension vectors, on which the truncating `dotP` agrees with it.) -/
noncomputable def cosineSimilaritySDM (vec1 vec2 : List ℝ) : ℝ :=
  let dot := dotP vec1 vec2
  let norm1 := Real.sqrt (sumSq vec1)
  let norm2 := Real.sqrt (sumSq vec2)
  if norm1 = 0 ∨ norm2 = 0 then 0
  else dot / (norm1 * norm2)

/-! ## The similarity-search pipeline -/

/-- A document of the `document_embeddings` collection as `similarity_search`
sees it: an opaque payload (everything except the `embedding` field, abstracted
to a tag) and an optional `embedding` field — documents lacking the field are
skipped by the scan (`if "embedding" not in doc: continue`). -/
structure Doc where
  payload : ℕ
  embedding : Option (List ℚ)
deriving DecidableEq

/-- A search result: the document payload with the `embedding` field stripped,
plus the attached `similarity_score`. -/
structure Scored where
  payload : ℕ
  score : ℚ
deriving DecidableEq

/-- `limit = limit or self.default_limit` with `self.default_limit = 10`
(`src/tools/vector_search_tool.py`, lines 30 and 198): `None` and the falsy
`0` are both replaced by `10`. -/
def effectiveLimit : Option ℕ → ℕ
  | none => 10
  | some n => if n = 0 then 10 else n

/-- `similarity_threshold = similarity_threshold or self.min_similarity_threshold`
with `self.min_similarity_threshold = 0.5`
(`src/tools/vector_search_tool.py`, lines 31 and 199): `None` and the falsy
`0.0` are both replaced by `0.5`. -/
def effectiveThreshold : Option ℚ → ℚ
  | none => 1/2
  | some t => if t = 0 then 1/2 else t

/-- The corpus scan of `similarity_search`
(`src/tools/vector_search_tool.py`, lines 209–225): for each fetched document,
skip it if it has no `embedding`, compute the similarity against the query
embedding, and keep it (payload plus `similarity_score`) iff the score is at
least the threshold.  The output is in corpus (fetch) order. -/
def scoredMatches (sim : List ℚ → List ℚ → ℚ) (q : List ℚ) (th : ℚ)
    (docs : List Doc) : List Scored :=
  docs.filterMap (fun d =>
    match d.embedding with
    | none => none
    | some e =>
        let s := sim q e
        if th ≤ s then some ⟨d.payload, s⟩ else none)

/-- One step of a stable descending insertion sort: insert `x` before the first
element whose score is `≤ x.score` (so `x`, which precedes the others in the
original order, comes first among equal scores). -/
def insertDesc (x : Scored) : List Scored → List Scored
  | [] => [x]
  | y :: ys => if y.score ≤ x.score then x :: y :: ys else y :: insertDesc x ys

/-- `results.sort(key=lambda x: x["similarity_score"], reverse=True)`
(`src/tools/vector_search_tool.py`, line 228).  Python's sort is stable, and
is therefore extensionally the stable descending insertion sort below (sorted
descending by score, equal-score elements in their original relative order —
properties that determine the output uniquely). -/
def sortDesc : List Scored → List Scored
  | [] => []
  | x :: xs => insertDesc x (sortDesc xs)

/-- The list of results of a successful `similarity_search`
(`src/tools/vector_search_tool.py`, lines 196–231): apply the truthiness
defaults to `limit` and `similarity_threshold`, scan the corpus, sort the
matches descending by score, and truncate to the effective limit
(`results[:limit]`). -/
def searchResults (sim : List ℚ → List ℚ → ℚ) (q : List ℚ)
    (lim : Option ℕ) (th : Option ℚ) (docs : List Doc) : List Scored :=
  (sortDesc (scoredMatches sim q (effectiveThreshold th) docs)).take
    (effectiveLimit lim)

/-- `VectorSearchTool.similarity_search`
(`src/tools/vector_search_tool.py`, lines 186–242).  The query embedding is
produced by an external API call (`EmbeddingTool.create_embedding`), so its
outcome is a parameter: on failure the whole search returns the failure record
`{"success": False, "error": "Lỗi khi tạo embedding cho query: ..."}` without
touching the corpus; on success it returns the success record whose `results`
field is `searchResults`. -/
def similaritySearch (sim : List ℚ → List ℚ → ℚ)
    (embedOutcome : Except String (List ℚ))
    (lim : Option ℕ) (th : Option ℚ) (docs : List Doc) :
    Except String (List Scored) :=
  match embedOutcome with
  | .error e => .error ("Lỗi khi tạo embedding cho query: " ++ e)
  | .ok q => .ok (searchResults sim q lim th docs)

/-! ## Token chunking -/

/-- The chunking loop of `EmbeddingTool._split_text_by_tokens`
(`src/tools/embedding_tool.py`, lines 143–156):
`while start < len(tokens): chunks.append(tokens[start : start + max_tokens]);
start = (start + max_tokens) - overlap_tokens`.  The hypothesis
`overlap_tokens < max_tokens` is exactly what makes the Python loop advance. -/
def chunkFrom (tokens : List α) (maxTokens overlapTokens : ℕ)
    (hov : overlapTokens < maxTokens) (start : ℕ) : List (List α) :=
  if _h : start < tokens.length then
    ((tokens.drop start).take maxTokens) ::
      chunkFrom tokens maxTokens overlapTokens hov (start + maxTokens - overlapTokens)
  else []
termination_by tokens.length - start
decreasing_by omega

/-- `EmbeddingTool._split_text_by_tokens` on an already-encoded token list
(`src/tools/embedding_tool.py`, lines 137–157): if the whole text fits in one
chunk return it whole, otherwise run the chunking loop from `start = 0`. -/
def splitTextByTokens (tokens : List α) (maxTokens overlapTokens : ℕ)
    (hov : overlapTokens < maxTokens) : List (List α) :=
  if tokens.length ≤ maxTokens then [tokens]
  else chunkFrom tokens maxTokens overlapTokens hov 0

/-! ## The knowledge-base stage of the retrieval cascade -/

/-- Where the cascade of `smart_search_and_answer` goes after the
knowledge-base search. -/
inductive CascadeStage
  | knowledgeBase
  | webSearch
deriving DecidableEq

/-- `max(result['similarity_score'] for result in kb_results["results"])` —
Python's `max` over a nonempty list (defined as `0` on `[]`, where the code
never evaluates it). -/
def bestScore : List ℚ → ℚ
  | [] => 0
  | s :: rest => rest.foldl max s

/-- The knowledge-base acceptance decision of `smart_search_and_answer`
(`src/agents.py`, lines 270–323).  Inputs: the outcome of the KB
`similarity_search` abstracted to its list of similarity scores, and the
word-overlap count `overlap = len(query_words & content_words)` computed from
the query and the best result's content (abstracted to the number the code
computes).  The code terminates at the knowledge base iff the search succeeded
with a nonempty result list, `best_score >= 0.7`, and
`relevant_keywords = (overlap >= 2 or best_score >= 0.7)`; in every other case
(including a failed search) it falls through to the web search. -/
def kbDecision (kb : Except String (List ℚ)) (overlap : ℕ) : CascadeStage :=
  match kb with
  | .error _ => .webSearch
  | .ok scores =>
      match scores with
      | [] => .webSearch
      | s :: rest =>
          let best := bestScore (s :: rest)
          let relevantKeywords := 2 ≤ overlap ∨ (7:ℚ)/10 ≤ best
          if (7:ℚ)/10 ≤ best ∧ relevantKeywords then .knowledgeBase
          else .webSearch

/-! ## Helper lemmas about the stable descending sort -/

lemma mem_insertDesc {x z : Scored} {l : List Scored} :
    z ∈ insertDesc x l ↔ z = x ∨ z ∈ l := by
  induction l with
  | nil => simp [insertDesc]
  | cons y ys ih =>
    rw [insertDesc]
    by_cases hc : y.score ≤ x.score
    · rw [if_pos hc]
      simp only [List.mem_cons]
    · rw [if_neg hc]
      simp only [List.mem_cons, ih]
      tauto

lemma pairwise_insertDesc {x : Scored} {l : List Scored}
    (h : l.Pairwise (fun a b => b.score ≤ a.score)) :
    (insertDesc x l).Pairwise (fun a b => b.score ≤ a.score) := by
  induction l with
  | nil => simp [insertDesc]
  | cons y ys ih =>
    rcases List.pairwise_cons.mp h with ⟨hy, hys⟩
    rw [insertDesc]
    by_cases hc : y.score ≤ x.score
    · rw [if_pos hc]
      refine List.pairwise_cons.mpr ⟨?_, h⟩
      intro z hz
      rcases List.mem_cons.mp hz with rfl | hz
      · exact hc
      · exact le_trans (hy z hz) hc
    · rw [if_neg hc]
      refine List.pairwise_cons.mpr ⟨?_, ih hys⟩
      intro z hz
      rcases mem_insertDesc.mp hz with rfl | hz
      · exact le_of_not_le hc
      · exact hy z hz

lemma pairwise_sortDesc (l : List Scored) :
    (sortDesc l).Pairwise (fun a b => b.score ≤ a.score) := by
  induction l with
  | nil => simp [sortDesc]
  | cons x xs ih => exact pairwise_insertDesc ih

lemma mem_sortDesc {z : Scored} {l : List Scored} :
    z ∈ sortDesc l ↔ z ∈ l := by
  induction l with
  | nil => simp [sortDesc]
  | cons x xs ih =>
    rw [sortDesc, mem_insertDesc]
    simp [ih]

lemma filter_insertDesc (s : ℚ) (x : Scored) (l : List Scored) :
    (insertDesc x l).filter (fun r => decide (r.score = s))
      = if x.score = s then x :: l.filter (fun r => decide (r.score = s))
        else l.filter (fun r => decide (r.score = s)) := by
  induction l with
  | nil =>
    by_cases hx : x.score = s <;> simp [insertDesc, hx]
  | cons y ys ih =>
    rw [insertDesc]
    by_cases hc : y.score ≤ x.score
    · rw [if_pos hc]
      by_cases hx : x.score = s <;> simp [List.filter_cons, hx]
    · rw [if_neg hc]
      by_cases hx : x.score = s
      · have hy : ¬ y.score = s := fun h => hc (le_of_eq (h.trans hx.symm))
        simp [List.filter_cons, hy, ih, hx]
      · by_cases hy : y.score = s <;> simp [List.filter_cons, hy, ih, hx]

lemma filter_sortDesc (s : ℚ) (l : List Scored) :
    (sortDesc l).filter (fun r => decide (r.score = s))
      = l.filter (fun r => decide (r.score = s)) := by
  induction l with
  | nil => simp [sortDesc]
  | cons x xs ih =>
    rw [sortDesc, filter_insertDesc]
    by_cases hx : x.score = s <;> simp [List.filter_cons, hx, ih]

/-! ## Helper lemmas about the corpus scan and the defaults -/

lemma mem_scoredMatches {sim : List ℚ → List ℚ → ℚ} {q : List ℚ} {th : ℚ}
    {docs : List Doc} {r : Scored} :
    r ∈ scoredMatches sim q th docs ↔
      ∃ d ∈ docs, ∃ e, d.embedding = some e ∧ th ≤ sim q e ∧
        r = ⟨d.payload, sim q e⟩ := by
  unfold scoredMatches
  rw [List.mem_filterMap]
  constructor
  · rintro ⟨d, hd, hf⟩
    rcases he : d.embedding with _ | e
    · rw [he] at hf
      exact absurd hf (by simp)
    · rw [he] at hf
      dsimp only at hf
      by_cases hth : th ≤ sim q e
      · rw [if_pos hth] at hf
        exact ⟨d, hd, e, he, hth, (Option.some.inj hf).symm⟩
      · rw [if_neg hth] at hf
        cases hf
  · rintro ⟨d, hd, e, he, hth, rfl⟩
    refine ⟨d, hd, ?_⟩
    rw [he]
    dsimp only
    rw [if_pos hth]

lemma le_effectiveThreshold (t : ℚ) : t ≤ effectiveThreshold (some t) := by
  by_cases h : t = 0
  · subst h
    simp [effectiveThreshold]
  · simp [effectiveThreshold, h]

lemma effectiveLimit_of_pos {L : ℕ} (hL : 1 ≤ L) : effectiveLimit (some L) = L := by
  have h : L ≠ 0 := by omega
  simp [effectiveLimit, h]

/-! ## Helper lemmas about the chunking loop -/

lemma chunkFrom_eq_cons {α : Type} {tokens : List α} {maxT ov : ℕ}
    (hov : ov < maxT) {start : ℕ} (hs : start < tokens.length) :
    chunkFrom tokens maxT ov hov start
      = ((tokens.drop start).take maxT) ::
          chunkFrom tokens maxT ov hov (start + maxT - ov) := by
  rw [chunkFrom]
  rw [dif_pos hs]

lemma chunkFrom_eq_nil {α : Type} {tokens : List α} {maxT ov : ℕ}
    (hov : ov < maxT) {start : ℕ} (hs : ¬ start < tokens.length) :
    chunkFrom tokens maxT ov hov start = [] := by
  rw [chunkFrom]
  rw [dif_neg hs]

/-- Exact chunk count of the loop: starting at `start`, the loop emits
`⌈(tokens.length - start) / (maxT - ov)⌉` chunks (expressed with natural
division as `(tokens.length - start + (maxT - ov) - 1) / (maxT - ov)`). -/
lemma chunkFrom_length {α : Type} (tokens : List α) (maxT ov : ℕ)
    (hov : ov < maxT) :
    ∀ fuel start, tokens.length - start ≤ fuel →
      (chunkFrom tokens maxT ov hov start).length
        = (tokens.length - start + (maxT - ov) - 1) / (maxT - ov) := by
  intro fuel
  induction fuel with
  | zero =>
    intro start h
    rw [chunkFrom_eq_nil hov (by omega)]
    rw [List.length_nil, Nat.div_eq_of_lt (by omega)]
  | succ n ih =>
    intro start h
    by_cases hs : start < tokens.length
    · rw [chunkFrom_eq_cons hov hs, List.length_cons]
      rw [ih (start + maxT - ov) (by omega)]
      have harg : start + maxT - ov = start + (maxT - ov) := by omega
      rw [harg]
      rcases le_or_lt tokens.length (start + (maxT - ov)) with hc | hc
      · have h1 : tokens.length - (start + (maxT - ov)) = 0 := by omega
        have hdiv : (tokens.length - start + (maxT - ov) - 1) / (maxT - ov) = 1 :=
          Nat.div_eq_of_lt_le (by omega) (by omega)
        rw [h1, Nat.div_eq_of_lt (by omega), hdiv]
      · have h2 : tokens.length - start + (maxT - ov) - 1
            = (tokens.length - (start + (maxT - ov)) + (maxT - ov) - 1) + (maxT - ov) := by
          omega
        rw [h2, Nat.add_div_right _ (by omega)]
    · rw [chunkFrom_eq_nil hov hs]
      rw [List.length_nil, Nat.div_eq_of_lt (by omega)]

/-- Every chunk the loop emits is `tokens[start : start + maxT]` for some
`start`, hence has at most `maxT` tokens. -/
lemma chunkFrom_chunk_le {α : Type} (tokens : List α) (maxT ov : ℕ)
    (hov : ov < maxT) :
    ∀ fuel start, tokens.length - start ≤ fuel →
      ∀ c ∈ chunkFrom tokens maxT ov hov start, c.length ≤ maxT := by
  intro fuel
  induction fuel with
  | zero =>
    intro start h c hc
    rw [chunkFrom_eq_nil hov (by omega)] at hc
    cases hc
  | succ n ih =>
    intro start h c hc
    by_cases hs : start < tokens.length
    · rw [chunkFrom_eq_cons hov hs] at hc
      rcases List.mem_cons.mp hc with rfl | hc
      · calc ((tokens.drop start).take maxT).length
            = min maxT (tokens.drop start).length := List.length_take ..
          _ ≤ maxT := min_le_left ..
      · exact ih (start + maxT - ov) (by omega) c hc
    · rw [chunkFrom_eq_nil hov hs] at hc
      cases hc

/-! ## Claims -/

/-- C2 helper: chunking a 10000-token document with `max_tokens = 1000` and
`overlap_tokens = 100` yields 12 chunks: the loop visits the starts
0, 900, 1800, …, 9000, 9900 (the start 9900 is still `< 10000`, so one more
chunk is emitted even though the chunk starting at 9000 already reached the
end of the document). -/
lemma splitTextByTokens_10000 :
    (splitTextByTokens (List.replicate 10000 (0:ℕ)) 1000 100 (by omega)).length
      = 12 := by
  unfold splitTextByTokens
  rw [if_neg (by rw [List.length_replicate]; omega)]
  rw [chunkFrom_length _ _ _ _ 10000 0 (by rw [List.length_replicate])]
  rw [List.length_replicate]

/-- C2 (counterexample): the claim predicts
`ceil((10000 - 100) / 900) = 11` chunks, but the implementation produces 12:
the loop `while start < len: …; start = start + max_tokens - overlap_tokens`
emits a final chunk starting at 9900 even though the chunk starting at 9000
already covered the document to its end. -/
theorem C2_chunk_count_counterexample :
    (splitTextByTokens (List.replicate 10000 (0:ℕ)) 1000 100 (by omega)).length
      ≠ 11 := by
  rw [splitTextByTokens_10000]
  omega

/-- C2 (amended): chunking a 10,000-token document with `max_tokens = 1000`
and `overlap_tokens = 100` yields exactly 12 chunks
(`ceil(10000 / 900)`, one more than the claimed `ceil((10000 - 100) / 900)`),
and each chunk contains at most 1000 tokens. -/
theorem C2_chunk_count_and_size :
    (splitTextByTokens (List.replicate 10000 (0:ℕ)) 1000 100 (by omega)).length
      = 12 ∧
    (splitTextByTokens (List.replicate 10000 (0:ℕ)) 1000 100 (by omega)).all
      (fun c => decide (c.length ≤ 1000)) = true := by
  refine ⟨splitTextByTokens_10000, ?_⟩
  rw [List.all_eq_true]
  intro c hc
  unfold splitTextByTokens at hc
  rw [if_neg (by rw [List.length_replicate]; omega)] at hc
  have h := chunkFrom_chunk_le (List.replicate 10000 (0:ℕ)) 1000 100 (by omega)
    10000 0 (by rw [List.length_replicate]) c hc
  simpa using h

/-- C3: the two cosine-similarity conventions are not equal as functions: on
the equal-dimension nonzero (orthogonal) vectors `[1,0]` and `[0,1]`,
`VectorSearchTool._calculate_cosine_similarity` returns `(0 + 1)/2 = 0.5`,
while `EmbeddingTool.calculate_similarity` and
`SemanticDocumentManager._cosine_similarity` return the raw
dot-product-over-norms value `0`. -/
theorem C3_cosine_convention_mismatch :
    calculateCosineSimilarityVST [1, 0] [0, 1] = 1/2 ∧
    calculateSimilarityET [1, 0] [0, 1] = 0 ∧
    cosineSimilaritySDM [1, 0] [0, 1] = 0 ∧
    calculateCosineSimilarityVST [1, 0] [0, 1]
      ≠ calculateSimilarityET [1, 0] [0, 1] := by
  have hdot : dotP [(1:ℝ), 0] [0, 1] = 0 := by simp [dotP]
  have hs1 : sumSq [(1:ℝ), 0] = 1 := by norm_num [sumSq]
  have hs2 : sumSq [(0:ℝ), 1] = 1 := by norm_num [sumSq]
  have hvst : calculateCosineSimilarityVST [1, 0] [0, 1] = 1/2 := by
    simp only [calculateCosineSimilarityVST, hdot, hs1, hs2, Real.sqrt_one]
    norm_num [min_def, max_def]
  have het : calculateSimilarityET [1, 0] [0, 1] = 0 := by
    simp only [calculateSimilarityET, hdot, hs1, hs2, Real.sqrt_one]
    norm_num [min_def, max_def]
  have hsdm : cosineSimilaritySDM [1, 0] [0, 1] = 0 := by
    simp only [cosineSimilaritySDM, hdot, hs1, hs2, Real.sqrt_one]
    norm_num
  refine ⟨hvst, het, hsdm, ?_⟩
  rw [hvst, het]
  norm_num

/-- C1 (counterexample): with an explicitly passed `limit = 0` the claim
"truncated to at most `limit` results" fails: the falsy `0` is replaced by the
default `10`, and on a one-document corpus whose score clears the threshold
the search returns 1 > 0 results. -/
theorem C1_limit_zero_counterexample :
    ¬ ((searchResults (fun _ _ => (2:ℚ)) [] (some 0) (some 1)
        [⟨0, some []⟩]).length ≤ 0) := by
  decide

/-- C1 (amended, `limit ≥ 1`; a passed limit of `0` is replaced by the
default `10`, see the truthiness claim): for every corpus, threshold `t` and
limit `L ≥ 1`, `similarity_search` returns only candidates whose similarity
score is `≥ t` (candidates without an embedding are skipped: every result
originates from a corpus document possessing an embedding), sorted in
descending order of score, truncated to at most `L` results. -/
theorem C1_search_filters_sorts_truncates (sim : List ℚ → List ℚ → ℚ)
    (q : List ℚ) (t : ℚ) (L : ℕ) (docs : List Doc) (hL : 1 ≤ L) :
    (∀ r ∈ searchResults sim q (some L) (some t) docs, t ≤ r.score) ∧
    (searchResults sim q (some L) (some t) docs).Pairwise
      (fun a b => b.score ≤ a.score) ∧
    (searchResults sim q (some L) (some t) docs).length ≤ L ∧
    (∀ r ∈ searchResults sim q (some L) (some t) docs,
      ∃ d ∈ docs, ∃ e, d.embedding = some e ∧ r.payload = d.payload ∧
        r.score = sim q e) := by
  have hmem : ∀ r ∈ searchResults sim q (some L) (some t) docs,
      r ∈ scoredMatches sim q (effectiveThreshold (some t)) docs := by
    intro r hr
    unfold searchResults at hr
    exact mem_sortDesc.mp (List.take_subset _ _ hr)
  refine ⟨?_, ?_, ?_, ?_⟩
  · intro r hr
    rcases mem_scoredMatches.mp (hmem r hr) with ⟨d, hd, e, he, hth, rfl⟩
    exact le_trans (le_effectiveThreshold t) hth
  · unfold searchResults
    exact List.Pairwise.sublist (List.take_sublist _ _) (pairwise_sortDesc _)
  · unfold searchResults
    rw [effectiveLimit_of_pos hL]
    exact List.length_take_le _ _
  · intro r hr
    rcases mem_scoredMatches.mp (hmem r hr) with ⟨d, hd, e, he, hth, rfl⟩
    exact ⟨d, hd, e, he, rfl, rfl⟩

/-- C1 witness: the amended theorem applied to a concrete one-document corpus
with `limit = 1` and `threshold = 1`. -/
theorem C1_search_filters_sorts_truncates_witness :
    (1:ℕ) ≤ 1 ∧
    ((∀ r ∈ searchResults (fun _ _ => (2:ℚ)) [] (some 1) (some 1)
        [⟨5, some []⟩], (1:ℚ) ≤ r.score) ∧
     (searchResults (fun _ _ => (2:ℚ)) [] (some 1) (some 1)
        [⟨5, some []⟩]).Pairwise (fun a b => b.score ≤ a.score) ∧
     (searchResults (fun _ _ => (2:ℚ)) [] (some 1) (some 1)
        [⟨5, some []⟩]).length ≤ 1 ∧
     (∀ r ∈ searchResults (fun _ _ => (2:ℚ)) [] (some 1) (some 1)
        [⟨5, some []⟩],
        ∃ d ∈ [(⟨5, some []⟩ : Doc)], ∃ e, d.embedding = some e ∧
          r.payload = d.payload ∧ r.score = (2:ℚ))) :=
  ⟨le_refl 1,
    C1_search_filters_sorts_truncates (fun _ _ => (2:ℚ)) [] 1 1
      [⟨5, some []⟩] (le_refl 1)⟩

/-- C4: after a successful knowledge-base search, the cascade of
`smart_search_and_answer` moves to the web-search stage if and only if the
result set is empty or its best similarity score is below the acceptance
threshold `0.7`; otherwise it terminates at the knowledge base.  (The
word-overlap relevance check is immaterial: `relevant_keywords` is defined as
`overlap >= 2 or best_score >= 0.7`, so it is automatically true whenever
`best_score >= 0.7`.) -/
theorem C4_kb_to_web_iff (scores : List ℚ) (overlap : ℕ) :
    kbDecision (Except.ok scores) overlap = CascadeStage.webSearch
      ↔ scores = [] ∨ bestScore scores < 7/10 := by
  cases scores with
  | nil => simp [kbDecision]
  | cons s rest =>
    show (if (7:ℚ)/10 ≤ bestScore (s :: rest) ∧
            (2 ≤ overlap ∨ (7:ℚ)/10 ≤ bestScore (s :: rest))
          then CascadeStage.knowledgeBase else CascadeStage.webSearch)
        = CascadeStage.webSearch ↔ s :: rest = [] ∨ bestScore (s :: rest) < 7/10
    by_cases hb : (7:ℚ)/10 ≤ bestScore (s :: rest)
    · rw [if_pos ⟨hb, Or.inr hb⟩]
      simp [not_lt.mpr hb]
    · rw [if_neg (fun hand => hb hand.1)]
      simp [not_le.mp hb]

/-- C5: when the query embedding fails, `similarity_search` fails as a whole,
returning the failure record that carries the embedding error; the result does
not depend on the corpus at all (no corpus scan). -/
theorem C5_embed_failure_fails_whole_search (sim : List ℚ → List ℚ → ℚ)
    (e : String) (lim : Option ℕ) (th : Option ℚ) (docs : List Doc) :
    similaritySearch sim (Except.error e) lim th docs
      = Except.error ("Lỗi khi tạo embedding cho query: " ++ e) := rfl

/-- C6: when the query embedding succeeds and either the corpus is empty or no
candidate with an embedding reaches the (effective) similarity threshold,
`similarity_search` returns a SUCCESSFUL result with an empty result list,
not an error. -/
theorem C6_no_match_is_empty_success (sim : List ℚ → List ℚ → ℚ) (q : List ℚ)
    (lim : Option ℕ) (th : Option ℚ) (docs : List Doc)
    (h : ∀ d ∈ docs, ∀ e, d.embedding = some e →
      sim q e < effectiveThreshold th) :
    similaritySearch sim (Except.ok q) lim th docs = Except.ok [] := by
  have hm : scoredMatches sim q (effectiveThreshold th) docs = [] := by
    unfold scoredMatches
    rw [List.filterMap_eq_nil_iff]
    intro d hd
    rcases he : d.embedding with _ | e
    · rfl
    · dsimp only
      rw [if_neg (not_le.mpr (h d hd e he))]
  simp [similaritySearch, searchResults, hm, sortDesc]

/-- C6 witness: the theorem applied to a one-document corpus whose only
candidate scores 0, below the effective threshold 1. -/
theorem C6_no_match_is_empty_success_witness :
    similaritySearch (fun _ _ => (0:ℚ)) (Except.ok []) none (some 1)
      [⟨0, some []⟩] = Except.ok [] :=
  C6_no_match_is_empty_success (fun _ _ => (0:ℚ)) [] none (some 1)
    [⟨0, some []⟩] (by
      intro d hd e he
      simp [effectiveThreshold])

/-- C7: whenever either input vector has zero magnitude, both
`VectorSearchTool._calculate_cosine_similarity` and
`EmbeddingTool.calculate_similarity` return `0.0`: the `magnitude == 0` guard
makes the division unreachable (the embedded functions are total, so no
exception can arise). -/
theorem C7_zero_magnitude_returns_zero (v w : List ℝ)
    (hlen : v.length = w.length)
    (hz : Real.sqrt (sumSq v) = 0 ∨ Real.sqrt (sumSq w) = 0) :
    calculateCosineSimilarityVST v w = 0 ∧ calculateSimilarityET v w = 0 := by
  constructor
  · simp only [calculateCosineSimilarityVST]
    rw [if_neg (by simp [hlen])]
    exact if_pos hz
  · simp only [calculateSimilarityET]
    exact if_pos hz

/-- C7 witness: the zero vector `[0, 0]` against `[3, 4]`. -/
theorem C7_zero_magnitude_returns_zero_witness :
    calculateCosineSimilarityVST [0, 0] [3, 4] = 0 ∧
    calculateSimilarityET [0, 0] [3, 4] = 0 :=
  C7_zero_magnitude_returns_zero [0, 0] [3, 4] rfl
    (Or.inl (by norm_num [sumSq]))

/-- C8: the descending sort of `similarity_search` is stable: restricted to any
fixed score value `s`, the returned ranking is a sublist of the corpus-order
match list, i.e. candidates with exactly equal scores appear in the returned
ranking in their original corpus (fetch) order. -/
theorem C8_equal_scores_keep_corpus_order (sim : List ℚ → List ℚ → ℚ)
    (q : List ℚ) (lim : Option ℕ) (th : Option ℚ) (docs : List Doc) (s : ℚ) :
    ((searchResults sim q lim th docs).filter
        (fun r => decide (r.score = s))).Sublist
      ((scoredMatches sim q (effectiveThreshold th) docs).filter
        (fun r => decide (r.score = s))) := by
  have h1 : ((searchResults sim q lim th docs).filter
      (fun r => decide (r.score = s))).Sublist
      ((sortDesc (scoredMatches sim q (effectiveThreshold th) docs)).filter
        (fun r => decide (r.score = s))) := by
    unfold searchResults
    exact (List.take_sublist _ _).filter _
  rw [filter_sortDesc] at h1
  exact h1

/-- C9: both cosine-similarity implementations are symmetric in their two
arguments (on equal-dimension vectors). -/
theorem C9_cosine_symmetry (v w : List ℝ) (hlen : v.length = w.length) :
    calculateCosineSimilarityVST v w = calculateCosineSimilarityVST w v ∧
    calculateSimilarityET v w = calculateSimilarityET w v := by
  have hdot : dotP v w = dotP w v := by
    unfold dotP
    rw [List.zipWith_comm_of_comm _ mul_comm]
  constructor
  · by_cases hz : Real.sqrt (sumSq v) = 0 ∨ Real.sqrt (sumSq w) = 0
    · have h1 : calculateCosineSimilarityVST v w = 0 := by
        simp only [calculateCosineSimilarityVST]
        rw [if_neg (by simp [hlen])]
        exact if_pos hz
      have h2 : calculateCosineSimilarityVST w v = 0 := by
        simp only [calculateCosineSimilarityVST]
        rw [if_neg (by simp [hlen])]
        exact if_pos hz.symm
      rw [h1, h2]
    · have h1 : calculateCosineSimilarityVST v w
          = max 0 (min 1 ((dotP v w
              / (Real.sqrt (sumSq v) * Real.sqrt (sumSq w)) + 1) / 2)) := by
        simp only [calculateCosineSimilarityVST]
        rw [if_neg (by simp [hlen]), if_neg hz]
      have h2 : calculateCosineSimilarityVST w v
          = max 0 (min 1 ((dotP w v
              / (Real.sqrt (sumSq w) * Real.sqrt (sumSq v)) + 1) / 2)) := by
        simp only [calculateCosineSimilarityVST]
        rw [if_neg (by simp [hlen]), if_neg (fun hor => hz hor.symm)]
      rw [h1, h2, hdot, mul_comm]
  · by_cases hz : Real.sqrt (sumSq v) = 0 ∨ Real.sqrt (sumSq w) = 0
    · have h1 : calculateSimilarityET v w = 0 := by
        simp only [calculateSimilarityET]
        exact if_pos hz
      have h2 : calculateSimilarityET w v = 0 := by
        simp only [calculateSimilarityET]
        exact if_pos hz.symm
      rw [h1, h2]
    · have h1 : calculateSimilarityET v w
          = max 0 (min 1 (dotP v w
              / (Real.sqrt (sumSq v) * Real.sqrt (sumSq w)))) := by
        simp only [calculateSimilarityET]
        rw [if_neg hz]
      have h2 : calculateSimilarityET w v
          = max 0 (min 1 (dotP w v
              / (Real.sqrt (sumSq w) * Real.sqrt (sumSq v)))) := by
        simp only [calculateSimilarityET]
        rw [if_neg (fun hor => hz hor.symm)]
      rw [h1, h2, hdot, mul_comm]

/-- C9 witness: symmetry at the concrete pair `[1, 2]`, `[3, 4]`. -/
theorem C9_cosine_symmetry_witness :
    calculateCosineSimilarityVST [1, 2] [3, 4]
      = calculateCosineSimilarityVST [3, 4] [1, 2] ∧
    calculateSimilarityET [1, 2] [3, 4]
      = calculateSimilarityET [3, 4] [1, 2] :=
  C9_cosine_symmetry [1, 2] [3, 4] rfl

/-- C10: an explicitly passed `similarity_threshold` of `0.0` (or `limit` of
`0`) is silently replaced by the defaults `0.5` and `10` (Python's truthiness
`or`), so a search requested with both zeros behaves exactly like a search
with no arguments, and every result returned to such a caller still has
similarity score `≥ 0.5`. -/
theorem C10_falsy_zero_gets_defaults (sim : List ℚ → List ℚ → ℚ) (q : List ℚ)
    (docs : List Doc) :
    similaritySearch sim (Except.ok q) (some 0) (some 0) docs
      = similaritySearch sim (Except.ok q) none none docs ∧
    ∀ r ∈ searchResults sim q (some 0) (some 0) docs, 1/2 ≤ r.score := by
  have hth : effectiveThreshold (some 0) = 1/2 := by simp [effectiveThreshold]
  have hl : effectiveLimit (some 0) = 10 := by simp [effectiveLimit]
  constructor
  · simp [similaritySearch, searchResults, hth, hl, effectiveThreshold,
      effectiveLimit]
  · intro r hr
    have hmem : r ∈ scoredMatches sim q (effectiveThreshold (some 0)) docs := by
      unfold searchResults at hr
      exact mem_sortDesc.mp (List.take_subset _ _ hr)
    rcases mem_scoredMatches.mp hmem with ⟨d, hd, e, he, hthle, rfl⟩
    rw [hth] at hthle
    exact hthle

/-- C10 witness: a caller passing `threshold = 0` on a corpus with a
score-3 candidate still only receives results with score `≥ 0.5`. -/
theorem C10_falsy_zero_gets_defaults_witness :
    (1:ℚ)/2 ≤ (⟨7, 3⟩ : Scored).score :=
  (C10_falsy_zero_gets_defaults (fun _ _ => (3:ℚ)) [] [⟨7, some []⟩]).2
    ⟨7, 3⟩ (by
      norm_num [searchResults, scoredMatches, sortDesc, insertDesc,
        effectiveLimit, effectiveThreshold])
